import Mathlib

/-!
Shallow embedding of the comfyui-vram-overlay repository
(src/mvu_overlay_app.py and src/nodes.py) and proofs about it.

The program is two cooperating pieces:
* `mvu_overlay_app.py` — the Monitor process: `VramMonitorModel` wraps the
  NVML telemetry library, `ProcessMonitorModel` decides whether the watched
  host process is still alive, `OverlayController._update_vram` turns the
  telemetry reading into the displayed text.
* `nodes.py` — the Host-side supervisor: `OverlayProcessManager` owns at most
  one child-process handle (`is_running`, `start_overlay`, `stop_overlay`),
  and the plugin node `MVU_VramOverlay.run` dispatches on its boolean input.

External collaborators (NVML, psutil, the OS process table, subprocess) are
modelled as explicit environment records; the Python objects' mutable fields
become explicit state records threaded through the functions.
-/

/-- Configured process-name substring `AppConfig.TARGET_PROCESS_NAME`. -/
def AppConfig.TARGET_PROCESS_NAME : String := "python"

/-- Configured command-line keyword `AppConfig.TARGET_CMDLINE_KEYWORD`. -/
def AppConfig.TARGET_CMDLINE_KEYWORD : String := "main.py"

/-- One entry of the enumerated OS process table, as
`psutil.process_iter(["name", "cmdline"])` yields it: a pid, a name and the
command-line argument list.  Processes whose inspection raises a psutil
error are skipped by the source's `except ... continue` and are modelled as
absent from the enumeration. -/
structure OsProc where
  pid : Nat
  name : String
  cmdline : List String
deriving DecidableEq, Repr

/-- Python's substring test `needle in hay` on the character lists: the
needle is a prefix of some suffix of the hay. -/
def listIsInfix (needle : List Char) : List Char → Bool
  | [] => needle.isEmpty
  | c :: rest => needle.isPrefixOf (c :: rest) || listIsInfix needle rest

/-- Python's `needle in hay` for strings (substring containment). -/
def strContainsSub (hay needle : String) : Bool :=
  listIsInfix needle.toList hay.toList

/-- Python's `str.lower()`, character by character (the configured
substring and the process names of interest are ASCII). -/
def pyLower (s : String) : String :=
  String.mk (s.toList.map Char.toLower)

/-- The name condition of the fallback scan:
`AppConfig.TARGET_PROCESS_NAME in proc.info["name"].lower()`. -/
def nameMatches (p : OsProc) : Bool :=
  strContainsSub (pyLower p.name) AppConfig.TARGET_PROCESS_NAME

/-- The command-line condition of the fallback scan:
`proc.info["cmdline"] and AppConfig.TARGET_CMDLINE_KEYWORD in proc.info["cmdline"]`
— the list is truthy (non-empty) and the keyword is one of its elements
(Python `in` on a list is element membership). -/
def cmdlineMatches (p : OsProc) : Bool :=
  !p.cmdline.isEmpty && p.cmdline.contains AppConfig.TARGET_CMDLINE_KEYWORD

/-- The fallback `for proc in psutil.process_iter(...)` loop of
`ProcessMonitorModel.is_alive`: return True on the first process satisfying
both conditions, False when the loop ends. -/
def fallbackScan : List OsProc → Bool
  | [] => false
  | p :: rest => if nameMatches p && cmdlineMatches p then true else fallbackScan rest

/-- `psutil.pid_exists` against the modelled process table: some enumerated
process has the given pid. -/
def pid_exists (p : Nat) (table : List OsProc) : Bool :=
  table.any fun q => q.pid == p

/-- `ProcessMonitorModel.is_alive`.  The source guards with
`if self.target_pid:` — Python truthiness — so the explicit-pid branch
(`psutil.pid_exists`) is taken only for a present, non-zero pid; `None`
and `0` both fall through to the fallback scan. -/
def ProcessMonitorModel.is_alive (target_pid : Option Nat) (table : List OsProc) : Bool :=
  match target_pid with
  | some p => if p = 0 then fallbackScan table else pid_exists p table
  | none => fallbackScan table

/-- The mutable fields of `VramMonitorModel` (`_handle`, `_initialized`),
plus two instrumentation counters for the NVML calls the model issues:
how many times `nvmlInit` has been invoked and how many times
`nvmlShutdown` has been invoked. -/
structure VramState where
  handle : Option Nat
  initialized : Bool
  initCalls : Nat
  releaseCalls : Nat
deriving DecidableEq, Repr

/-- The state `VramMonitorModel.__init__` builds: no handle, not
initialized, no NVML calls issued yet. -/
def VramState.fresh : VramState :=
  { handle := none, initialized := false, initCalls := 0, releaseCalls := 0 }

/-- The NVML library's behaviour at one call site: whether
`nvmlInit` + `nvmlDeviceGetHandleByIndex(0)` succeed, and what
`nvmlDeviceGetMemoryInfo` yields (`some` free bytes, or `none` for an
`NVMLError`). -/
structure NvmlEnv where
  initOk : Bool
  freeBytes : Option Nat
deriving DecidableEq, Repr

/-- `VramMonitorModel.initialize`: try `nvmlInit()` and
`nvmlDeviceGetHandleByIndex(0)`; on success store the handle and set
`_initialized = True`; on `NVMLError` the except branch logs and sets
`_initialized = False`, leaving `_handle` unchanged.  Either way one
initialization attempt was issued to the library. -/
def VramMonitorModel.initNVML (env : NvmlEnv) (s : VramState) : VramState :=
  if env.initOk then
    { s with handle := some 0, initialized := true, initCalls := s.initCalls + 1 }
  else
    { s with initialized := false, initCalls := s.initCalls + 1 }

/-- `VramMonitorModel.get_free_memory_mb`: `None` when
`not self._initialized or not self._handle`; otherwise query
`nvmlDeviceGetMemoryInfo` and return `mem_info.free // (1024 ** 2)`, or
`None` when the query raises `NVMLError`.  The method assigns nothing, so
the state comes back unchanged on every path. -/
def VramMonitorModel.get_free_memory_mb (env : NvmlEnv) (s : VramState) :
    Option Nat × VramState :=
  if !s.initialized || s.handle.isNone then (none, s)
  else
    match env.freeBytes with
    | some b => (some (b / 1024 ^ 2), s)
    | none => (none, s)

/-- `VramMonitorModel.shutdown`: `if self._initialized:` invoke
`nvmlShutdown()` (an `NVMLError` from it is caught and only logged).  The
source clears neither `_initialized` nor `_handle`, so the state other
than the call counter is unchanged. -/
def VramMonitorModel.shutdown (s : VramState) : VramState :=
  if s.initialized then { s with releaseCalls := s.releaseCalls + 1 } else s

/-- `OverlayController._update_vram`: ask the model for the free megabytes
and set the label text — the value text on `some`, the error text on
`none`. -/
def OverlayController.update_vram (env : NvmlEnv) (s : VramState) : String × VramState :=
  match VramMonitorModel.get_free_memory_mb env s with
  | (some mb, s2) => ("VRAM: " ++ toString mb ++ " MB", s2)
  | (none, s2) => ("VRAM: Err", s2)

/-- Successive firings of the VRAM poll timer: run `_update_vram` once per
environment in the list, threading the model state, collecting the
displayed texts. -/
def OverlayController.runPolls : List NvmlEnv → VramState → List String × VramState
  | [], s => ([], s)
  | e :: es, s =>
    match OverlayController.update_vram e s with
    | (t, s2) =>
      match OverlayController.runPolls es s2 with
      | (ts, s3) => (t :: ts, s3)

/-- The OS as `OverlayProcessManager` sees it: whether the overlay script
file exists next to the module, whether `subprocess.Popen` succeeds, whether
`poll()` of a given spawned process reports it still running (`poll() is
None`), and whether a given process exits within the 2-second grace window
of `wait(timeout=2)` after `terminate()`. -/
structure MgrEnv where
  scriptExists : Bool
  spawnOk : Bool
  childRuns : Nat → Bool
  exitsInGrace : Nat → Bool

/-- The mutable state of the `OverlayProcessManager` singleton: the stored
`_process` handle (identified by a pid drawn from `nextId`), plus an
instrumentation counter of how many processes were ever spawned. -/
structure MgrState where
  process : Option Nat
  spawned : Nat
  nextId : Nat
deriving DecidableEq, Repr

/-- The manager before any start: `_process is None`. -/
def MgrState.fresh : MgrState :=
  { process := none, spawned := 0, nextId := 0 }

/-- `OverlayProcessManager.is_running`: False when `_process is None`,
otherwise whether `poll()` returns None (process still working). -/
def OverlayProcessManager.is_running (env : MgrEnv) (s : MgrState) : Bool :=
  match s.process with
  | none => false
  | some h => env.childRuns h

/-- `subprocess.Popen(cmd, cwd=current_dir)`: a fresh handle, or the
`OSError` the OS may raise instead. -/
def popenOverlay (env : MgrEnv) (s : MgrState) : Except Unit Nat :=
  if env.spawnOk then Except.ok s.nextId else Except.error ()

/-- `OverlayProcessManager.start_overlay`: return at once when
`is_running`; return (logging an error) when the script path does not
exist; otherwise `Popen` the overlay — on success store the handle, on
`OSError` the except branch logs and leaves `_process` unchanged. -/
def OverlayProcessManager.start_overlay (env : MgrEnv) (s : MgrState) : MgrState :=
  if OverlayProcessManager.is_running env s then s
  else if !env.scriptExists then s
  else
    match popenOverlay env s with
    | Except.ok h => { process := some h, spawned := s.spawned + 1, nextId := s.nextId + 1 }
    | Except.error _ => s

/-- The process-control calls `stop_overlay` can issue, in order:
`terminate()`, `wait(timeout)` for the grace period, `kill()`. -/
inductive StopAction where
  | terminate : StopAction
  | waitGrace : Nat → StopAction
  | kill : StopAction
deriving DecidableEq, Repr

/-- The fixed grace period of `self._process.wait(timeout=2)`. -/
def STOP_GRACE_TIMEOUT : Nat := 2

/-- `OverlayProcessManager.stop_overlay`: under
`if self.is_running and self._process:` send `terminate()`, then
`wait(timeout=2)`; when that raises `TimeoutExpired` send `kill()`; then
clear `_process`.  Otherwise (no handle, or the process already exited)
only a debug log, nothing issued, state untouched.  The second component
records the calls issued to the child, in order. -/
def OverlayProcessManager.stop_overlay (env : MgrEnv) (s : MgrState) :
    MgrState × List StopAction :=
  match s.process with
  | some h =>
    if env.childRuns h then
      ({ s with process := none },
        if env.exitsInGrace h then
          [StopAction.terminate, StopAction.waitGrace STOP_GRACE_TIMEOUT]
        else
          [StopAction.terminate, StopAction.waitGrace STOP_GRACE_TIMEOUT, StopAction.kill])
    else (s, [])
  | none => (s, [])

/-- `MVU_VramOverlay.run`: on `enabled` call `start_overlay`, otherwise
`stop_overlay`, and return the tuple `(enabled,)` unchanged. -/
def MVU_VramOverlay.run (env : MgrEnv) (s : MgrState) (enabled : Bool) :
    Bool × MgrState :=
  if enabled then (enabled, OverlayProcessManager.start_overlay env s)
  else (enabled, (OverlayProcessManager.stop_overlay env s).1)

/-- A concrete process-table entry with pid 0, not matching the fallback
heuristic (the name does not contain the configured substring). -/
def procZero : OsProc := { pid := 0, name := "systemd", cmdline := ["init"] }

/-- A concrete process-table entry with pid 7 matching the fallback
heuristic. -/
def procSeven : OsProc := { pid := 7, name := "python", cmdline := ["python", "main.py"] }

/-- A concrete NVML environment in which initialization succeeds. -/
def envNvmlOk : NvmlEnv := { initOk := true, freeBytes := some 0 }

/-- A concrete NVML environment in which initialization fails. -/
def envNvmlFail : NvmlEnv := { initOk := false, freeBytes := some 0 }

/-- A concrete NVML environment whose memory query reports 5242879 free
bytes (one byte less than 5 MiB). -/
def envNvml5MiBminus1 : NvmlEnv := { initOk := true, freeBytes := some 5242879 }

/-- A concrete manager environment: script present, spawn succeeds, every
child still runs, no child exits within the grace window. -/
def envMgrLive : MgrEnv :=
  { scriptExists := true, spawnOk := true,
    childRuns := fun _ => true, exitsInGrace := fun _ => false }

/-- A concrete manager environment in which every child has already
exited. -/
def envMgrDead : MgrEnv :=
  { scriptExists := true, spawnOk := true,
    childRuns := fun _ => false, exitsInGrace := fun _ => true }

/-! ## Helper lemmas -/

/-- The fallback scan succeeds exactly when some enumerated process
satisfies both the name condition and the command-line condition. -/
theorem fallbackScan_eq_true_iff (table : List OsProc) :
    fallbackScan table = true ↔
      ∃ p ∈ table, nameMatches p = true ∧ cmdlineMatches p = true := by
  induction table with
  | nil =>
    constructor
    · intro h; exact absurd h (by decide)
    · rintro ⟨q, hq, -, -⟩; exact absurd hq (List.not_mem_nil q)
  | cons p rest ih =>
    have hcons : fallbackScan (p :: rest) =
        if nameMatches p && cmdlineMatches p then true else fallbackScan rest := rfl
    by_cases hb : (nameMatches p && cmdlineMatches p) = true
    · have h := hb
      rw [Bool.and_eq_true] at h
      constructor
      · intro _; exact ⟨p, List.mem_cons_self p rest, h.1, h.2⟩
      · intro _; rw [hcons, if_pos hb]
    · rw [hcons, if_neg hb, ih]
      constructor
      · rintro ⟨q, hq, h1, h2⟩
        exact ⟨q, List.mem_cons_of_mem p hq, h1, h2⟩
      · rintro ⟨q, hq, h1, h2⟩
        rcases List.mem_cons.mp hq with rfl | hq2
        · refine absurd ?_ hb
          rw [Bool.and_eq_true]
          exact ⟨h1, h2⟩
        · exact ⟨q, hq2, h1, h2⟩

/-- With the initialized flag down, every poll cycle shows the error text
and leaves the model state untouched. -/
theorem runPolls_uninitialized (envs : List NvmlEnv) (s : VramState)
    (h : s.initialized = false) :
    OverlayController.runPolls envs s = (envs.map fun _ => "VRAM: Err", s) := by
  induction envs with
  | nil => rfl
  | cons e es ih =>
    have hup : OverlayController.update_vram e s = ("VRAM: Err", s) := by
      simp [OverlayController.update_vram, VramMonitorModel.get_free_memory_mb, h]
    simp [OverlayController.runPolls, hup, ih]

/-! ## Claims -/

/-- C1: with no target pid, the fallback liveness detector reports the
target alive if and only if some process in the enumerated table satisfies
both the name-substring condition and the command-line condition; when
every process fails at least one of the two conditions the detector never
reports alive. -/
theorem c1_fallback_liveness (table : List OsProc) :
    (ProcessMonitorModel.is_alive none table = true ↔
      ∃ p ∈ table, nameMatches p = true ∧ cmdlineMatches p = true) ∧
    ((∀ p ∈ table, nameMatches p = false ∨ cmdlineMatches p = false) →
      ProcessMonitorModel.is_alive none table = false) := by
  have hmain : ProcessMonitorModel.is_alive none table = fallbackScan table := rfl
  constructor
  · rw [hmain]
    exact fallbackScan_eq_true_iff table
  · intro hall
    rw [hmain]
    cases hfb : fallbackScan table with
    | false => rfl
    | true =>
      exfalso
      obtain ⟨p, hp, h1, h2⟩ := (fallbackScan_eq_true_iff table).mp hfb
      rcases hall p hp with h | h
      · rw [h1] at h; exact Bool.noConfusion h
      · rw [h2] at h; exact Bool.noConfusion h

/-- C1 witness: on a concrete table whose only entry matches both
conditions, the detector reports alive; on a table whose entries each
match at most one condition, it does not. -/
theorem c1_fallback_liveness_witness :
    ProcessMonitorModel.is_alive none [procSeven] = true ∧
    ProcessMonitorModel.is_alive none
      [{ pid := 1, name := "python", cmdline := ["app.py"] },
       { pid := 2, name := "bash", cmdline := ["main.py"] }] = false := by
  constructor
  · exact (c1_fallback_liveness [procSeven]).1.mpr
      ⟨procSeven, List.mem_cons_self _ _, by decide, by decide⟩
  · exact (c1_fallback_liveness _).2 (by decide)

/-- C2 counterexample: on a successfully initialized model, one
`shutdown()` issues one release call, and a second `shutdown()` is not a
no-op — it issues a second release call to the library, because the
source never clears `_initialized`. -/
theorem c2_counterexample :
    (VramMonitorModel.shutdown (VramMonitorModel.initNVML envNvmlOk VramState.fresh)).releaseCalls
      = 1 ∧
    VramMonitorModel.shutdown
        (VramMonitorModel.shutdown (VramMonitorModel.initNVML envNvmlOk VramState.fresh)) ≠
      VramMonitorModel.shutdown (VramMonitorModel.initNVML envNvmlOk VramState.fresh) ∧
    (VramMonitorModel.shutdown
        (VramMonitorModel.shutdown (VramMonitorModel.initNVML envNvmlOk VramState.fresh))).releaseCalls
      = 2 := by decide

/-- C2 amended: `shutdown()` issues exactly one release call per
invocation while `_initialized` is set, and the flag is never cleared, so
n successive `shutdown()` calls on an initialized model issue n release
calls (double-release is a double release, not a no-op). -/
theorem c2_shutdown_release_per_call (s : VramState) (n : Nat)
    (h : s.initialized = true) :
    (VramMonitorModel.shutdown^[n] s).releaseCalls = s.releaseCalls + n ∧
    (VramMonitorModel.shutdown^[n] s).initialized = true := by
  have hstep : ∀ t : VramState, t.initialized = true →
      VramMonitorModel.shutdown t = { t with releaseCalls := t.releaseCalls + 1 } := by
    intro t ht
    unfold VramMonitorModel.shutdown
    rw [if_pos ht]
  induction n with
  | zero => exact ⟨rfl, h⟩
  | succ n ih =>
    obtain ⟨h1, h2⟩ := ih
    rw [Function.iterate_succ_apply', hstep _ h2]
    constructor
    · show (VramMonitorModel.shutdown^[n] s).releaseCalls + 1 = s.releaseCalls + (n + 1)
      omega
    · exact h2

/-- C2 amended witness: two shutdowns of a freshly initialized model issue
two release calls. -/
theorem c2_shutdown_release_witness :
    (VramMonitorModel.shutdown^[2]
      (VramMonitorModel.initNVML envNvmlOk VramState.fresh)).releaseCalls = 2 := by
  have h := c2_shutdown_release_per_call
    (VramMonitorModel.initNVML envNvmlOk VramState.fresh) 2 (by decide)
  rw [h.1]; decide

/-- C3 counterexample: with the explicitly supplied identifier 0 and a
table containing a process with pid 0 (which does not match the fallback
heuristic), the detector answers false although a process with that
identifier exists — the truthiness guard `if self.target_pid:` routes pid
0 to the fallback scan instead of the existence check. -/
theorem c3_counterexample :
    ProcessMonitorModel.is_alive (some 0) [procZero] = false ∧
    pid_exists 0 [procZero] = true := by decide

/-- C3 amended: for every explicitly supplied nonzero identifier,
`is_alive` is exactly the existence check on the process table; the
fallback name/cmdline scan is used when no identifier was supplied or
when the supplied identifier is 0. -/
theorem c3_pid_liveness (p : Nat) (table : List OsProc) (h : p ≠ 0) :
    ProcessMonitorModel.is_alive (some p) table = pid_exists p table ∧
    ProcessMonitorModel.is_alive none table = fallbackScan table ∧
    ProcessMonitorModel.is_alive (some 0) table = fallbackScan table := by
  refine ⟨?_, rfl, rfl⟩
  show (if p = 0 then fallbackScan table else pid_exists p table) = pid_exists p table
  rw [if_neg h]

/-- C3 amended witness: identifier 7 with a table that contains pid 7. -/
theorem c3_pid_liveness_witness :
    ProcessMonitorModel.is_alive (some 7) [procSeven] = true := by
  have h := c3_pid_liveness 7 [procSeven] (by decide)
  rw [h.1]; decide

/-- C4: while the stored handle's process is confirmed alive,
`start_overlay()` is a no-op — no spawn, handle unchanged — and therefore
two successive `start_overlay()` calls from an idle manager, in an
environment where the spawn succeeds and the child stays alive, spawn
exactly one process, the second call changing nothing. -/
theorem c4_idempotent_start (env : MgrEnv) (s : MgrState) :
    (OverlayProcessManager.is_running env s = true →
      OverlayProcessManager.start_overlay env s = s) ∧
    (s.process = none → env.scriptExists = true → env.spawnOk = true →
      env.childRuns s.nextId = true →
      OverlayProcessManager.start_overlay env (OverlayProcessManager.start_overlay env s) =
        OverlayProcessManager.start_overlay env s ∧
      (OverlayProcessManager.start_overlay env
          (OverlayProcessManager.start_overlay env s)).spawned = s.spawned + 1) := by
  constructor
  · intro h
    unfold OverlayProcessManager.start_overlay
    rw [if_pos h]
  · intro hp hsc hok hrun
    have h1 : OverlayProcessManager.start_overlay env s =
        { process := some s.nextId, spawned := s.spawned + 1, nextId := s.nextId + 1 } := by
      unfold OverlayProcessManager.start_overlay popenOverlay
      have hnr : OverlayProcessManager.is_running env s = false := by
        unfold OverlayProcessManager.is_running
        rw [hp]
      rw [hnr, hsc, hok]
      rfl
    have h2 : OverlayProcessManager.start_overlay env
        { process := some s.nextId, spawned := s.spawned + 1, nextId := s.nextId + 1 } =
        { process := some s.nextId, spawned := s.spawned + 1, nextId := s.nextId + 1 } := by
      have hr2 : OverlayProcessManager.is_running env
          { process := some s.nextId, spawned := s.spawned + 1, nextId := s.nextId + 1 } = true := by
        unfold OverlayProcessManager.is_running
        exact hrun
      unfold OverlayProcessManager.start_overlay
      rw [if_pos hr2]
    constructor
    · rw [h1]
      exact h2
    · rw [h1, h2]

/-- C4 witness: concretely, two successive starts from the fresh manager
in a live environment leave one spawned process and the second call is a
no-op. -/
theorem c4_idempotent_start_witness :
    OverlayProcessManager.start_overlay envMgrLive
        (OverlayProcessManager.start_overlay envMgrLive MgrState.fresh) =
      OverlayProcessManager.start_overlay envMgrLive MgrState.fresh ∧
    (OverlayProcessManager.start_overlay envMgrLive
        (OverlayProcessManager.start_overlay envMgrLive MgrState.fresh)).spawned = 1 := by
  have h := (c4_idempotent_start envMgrLive MgrState.fresh).2 rfl rfl rfl rfl
  exact ⟨h.1, h.2⟩

/-- C5: `stop_overlay()` on a handle whose process is alive issues
`terminate()` first, then waits the fixed 2-unit grace period, issues
`kill()` exactly when the process has not exited within that grace period
(never before the wait), and clears the stored handle in either case. -/
theorem c5_stop_graceful_then_kill (env : MgrEnv) (s : MgrState) (pid : Nat)
    (hp : s.process = some pid) (hr : env.childRuns pid = true) :
    (OverlayProcessManager.stop_overlay env s).1.process = none ∧
    (OverlayProcessManager.stop_overlay env s).2 =
      (if env.exitsInGrace pid then
        [StopAction.terminate, StopAction.waitGrace STOP_GRACE_TIMEOUT]
      else
        [StopAction.terminate, StopAction.waitGrace STOP_GRACE_TIMEOUT, StopAction.kill]) := by
  have hstop : OverlayProcessManager.stop_overlay env s =
      ({ s with process := none },
        if env.exitsInGrace pid then
          [StopAction.terminate, StopAction.waitGrace STOP_GRACE_TIMEOUT]
        else
          [StopAction.terminate, StopAction.waitGrace STOP_GRACE_TIMEOUT, StopAction.kill]) := by
    unfold OverlayProcessManager.stop_overlay
    rw [hp]
    show (if env.childRuns pid = true then _ else _) = _
    rw [if_pos hr]
  rw [hstop]
  exact ⟨rfl, rfl⟩

/-- C5 witness: a live process that ignores `terminate()` is killed only
after the 2-unit wait, and the handle is cleared. -/
theorem c5_stop_graceful_then_kill_witness :
    (OverlayProcessManager.stop_overlay envMgrLive
      { process := some 5, spawned := 1, nextId := 6 }).1.process = none ∧
    (OverlayProcessManager.stop_overlay envMgrLive
        { process := some 5, spawned := 1, nextId := 6 }).2 =
      [StopAction.terminate, StopAction.waitGrace 2, StopAction.kill] := by
  have h := c5_stop_graceful_then_kill envMgrLive
    { process := some 5, spawned := 1, nextId := 6 } 5 rfl rfl
  exact ⟨h.1, by rw [h.2]; rfl⟩

/-- C6: after a failed initialization the model is uninitialized, exactly
one initialization attempt was issued, and any number of subsequent poll
cycles — whatever the library would answer now — all display the error
text, return the metric-unavailable result, and leave the model state
(initialization-attempt counter included) unchanged. -/
theorem c6_failed_init_never_retries (env : NvmlEnv) (s : VramState)
    (envs : List NvmlEnv) (h : env.initOk = false) :
    (VramMonitorModel.initNVML env s).initialized = false ∧
    (VramMonitorModel.initNVML env s).initCalls = s.initCalls + 1 ∧
    (OverlayController.runPolls envs (VramMonitorModel.initNVML env s)).1 =
      envs.map (fun _ => "VRAM: Err") ∧
    (OverlayController.runPolls envs (VramMonitorModel.initNVML env s)).2 =
      VramMonitorModel.initNVML env s := by
  have h1 : VramMonitorModel.initNVML env s =
      { s with initialized := false, initCalls := s.initCalls + 1 } := by
    unfold VramMonitorModel.initNVML
    rw [h]
    rfl
  have h2 := runPolls_uninitialized envs (VramMonitorModel.initNVML env s) (by rw [h1])
  exact ⟨by rw [h1], by rw [h1], by rw [h2], by rw [h2]⟩

/-- C6 witness: after one failed initialization, 100 poll cycles (in an
environment where the library would even succeed now) all show the error
text and the initialization-attempt counter stays at 1. -/
theorem c6_failed_init_never_retries_witness :
    (OverlayController.runPolls (List.replicate 100 envNvmlOk)
        (VramMonitorModel.initNVML envNvmlFail VramState.fresh)).1 =
      (List.replicate 100 envNvmlOk).map (fun _ => "VRAM: Err") ∧
    (OverlayController.runPolls (List.replicate 100 envNvmlOk)
        (VramMonitorModel.initNVML envNvmlFail VramState.fresh)).2.initCalls = 1 := by
  have h := c6_failed_init_never_retries envNvmlFail VramState.fresh
    (List.replicate 100 envNvmlOk) rfl
  exact ⟨h.2.2.1, by rw [h.2.2.2]; decide⟩

/-- C7: the node operation returns its boolean input unchanged for every
input, every manager state and every environment — including those where
the overlay script is missing or the OS refuses the spawn, since
`start_overlay` handles both locally and `run` returns the pass-through
tuple regardless. -/
theorem c7_run_passthrough (env : MgrEnv) (s : MgrState) (enabled : Bool) :
    (MVU_VramOverlay.run env s enabled).1 = enabled := by
  cases enabled <;> rfl

/-- C8: `stop_overlay()` with no running process — no stored handle, or a
handle whose process already exited — issues no process-control call and
leaves the manager state exactly as it was. -/
theorem c8_stop_noop (env : MgrEnv) (s : MgrState)
    (h : OverlayProcessManager.is_running env s = false) :
    OverlayProcessManager.stop_overlay env s = (s, []) := by
  unfold OverlayProcessManager.stop_overlay
  cases hp : s.process with
  | none => rfl
  | some pid =>
    have hr : env.childRuns pid = false := by
      unfold OverlayProcessManager.is_running at h
      rw [hp] at h
      exact h
    show (if env.childRuns pid = true then _ else _) = _
    rw [hr]
    simp

/-- C8 witness: stopping the fresh manager changes nothing and issues
nothing. -/
theorem c8_stop_noop_witness :
    OverlayProcessManager.stop_overlay envMgrLive MgrState.fresh = (MgrState.fresh, []) := by
  have h := c8_stop_noop envMgrLive MgrState.fresh rfl
  exact h

/-- C9: on an initialized model, a successful query of b free bytes
yields exactly b / 1048576 megabytes (truncating division) and the
display text built from that value. -/
theorem c9_mb_truncation (envI envQ : NvmlEnv) (bytes : Nat)
    (h1 : envI.initOk = true) (h2 : envQ.freeBytes = some bytes) :
    (VramMonitorModel.get_free_memory_mb envQ
        (VramMonitorModel.initNVML envI VramState.fresh)).1 = some (bytes / 1048576) ∧
    (OverlayController.update_vram envQ
        (VramMonitorModel.initNVML envI VramState.fresh)).1 =
      "VRAM: " ++ toString (bytes / 1048576) ++ " MB" := by
  have hs : VramMonitorModel.initNVML envI VramState.fresh =
      { handle := some 0, initialized := true, initCalls := 1, releaseCalls := 0 } := by
    unfold VramMonitorModel.initNVML
    rw [h1]
    rfl
  have hpow : (1024 : Nat) ^ 2 = 1048576 := by norm_num
  have hget : VramMonitorModel.get_free_memory_mb envQ
      (VramMonitorModel.initNVML envI VramState.fresh) =
      (some (bytes / 1048576), VramMonitorModel.initNVML envI VramState.fresh) := by
    rw [hs]
    unfold VramMonitorModel.get_free_memory_mb
    rw [h2]
    show (some (bytes / 1024 ^ 2), _) = _
    rw [hpow]
  constructor
  · rw [hget]
  · unfold OverlayController.update_vram
    rw [hget]

/-- C9 witness: 5242879 free bytes — one byte short of 5 MiB — display as
4 MB, not 5. -/
theorem c9_mb_truncation_witness :
    (OverlayController.update_vram envNvml5MiBminus1
        (VramMonitorModel.initNVML envNvml5MiBminus1 VramState.fresh)).1 = "VRAM: 4 MB" := by
  have h := c9_mb_truncation envNvml5MiBminus1 envNvml5MiBminus1 5242879 rfl rfl
  rw [h.2]
  decide

/-- C10: the telemetry read is total — on every failure path
(uninitialized model, missing device handle, query error) it returns the
metric-unavailable result with the state untouched rather than raising —
and every poll cycle produces some display text: either the error text or
a VRAM value text. -/
theorem c10_total_poll (env : NvmlEnv) (s : VramState) :
    ((s.initialized = false ∨ s.handle = none ∨ env.freeBytes = none) →
      VramMonitorModel.get_free_memory_mb env s = (none, s)) ∧
    ((OverlayController.update_vram env s).1 = "VRAM: Err" ∨
      ∃ mb : Nat, (OverlayController.update_vram env s).1 =
        "VRAM: " ++ toString mb ++ " MB") := by
  constructor
  · rintro (h | h | h)
    · simp [VramMonitorModel.get_free_memory_mb, h]
    · simp [VramMonitorModel.get_free_memory_mb, h]
    · unfold VramMonitorModel.get_free_memory_mb
      rw [h]
      split
      · rfl
      · rfl
  · unfold OverlayController.update_vram
    cases hg : VramMonitorModel.get_free_memory_mb env s with
    | mk r s2 =>
      cases r with
      | none => left; rfl
      | some mb => right; exact ⟨mb, rfl⟩
